import Mathlib

/-!
Verification of the AMD-Hardware-Competition-2025 predictive-maintenance core.

Shallow embedding of:
* `redpitaya/sensor_simulation.py` — `RULSensorSimulator` (degradation factor,
  vibration synthesis, sample sequencing and reset);
* `redpitaya/sensor_feature_transform.py` — `SensorFeatureTransform.extract_8_features`;
* `webserver/app.py` — `extract_features`, `_safe_entropy`, `get_health_status`,
  and `SmartRULPredictor.predict_rul_smart` with its four `_format_*` helpers.

Python floats are modelled as exact rationals; `math.sqrt`/`np.log` force the
derived feature values into `ℝ`.  Stochastic draws (`random.gauss`,
`random.uniform`) are threaded as explicit parameters, so theorems quantify
over every realization.
-/

namespace AMDRul

/-! ### Python primitives -/

/-- Python `int(x)`: truncation toward zero. -/
def pytrunc (x : ℚ) : ℤ := if 0 ≤ x then ⌊x⌋ else ⌈x⌉

/-- Python `a % b` (sign follows `b`; here used with positive `b`). -/
def pymod (a b : ℚ) : ℚ := a - b * ⌊a / b⌋

/-- Python `a // b`: floor division, returning a float-valued integer. -/
def pyfloordiv (a b : ℚ) : ℚ := (⌊a / b⌋ : ℚ)

/-- Python 3 `round(x)`: round half to even (banker's rounding). -/
def pyround (x : ℚ) : ℤ :=
  let f := ⌊x⌋
  let r := x - (f : ℚ)
  if r < 1/2 then f
  else if 1/2 < r then f + 1
  else if f % 2 = 0 then f else f + 1

/-! ### Degradation simulator state (`RULSensorSimulator`) -/

/-- The mutable state of one `RULSensorSimulator` instance:
`total_samples` and `current_sample` (Python ints). -/
structure SimState where
  total_samples : ℤ
  current_sample : ℤ
deriving DecidableEq, Repr

/-- `RULSensorSimulator.__init__`: `total_samples = int(duration * sampling_rate)`,
`current_sample = 0`. -/
def init_state (duration sampling_rate : ℚ) : SimState :=
  { total_samples := pytrunc (duration * sampling_rate), current_sample := 0 }

/-- `RULSensorSimulator.get_degradation_factor`, as a function of the progress
`p = current_sample / total_samples` that the method computes from its state. -/
def get_degradation_factor (p : ℚ) : ℚ :=
  if p ≤ 0.40 then p * 0.05
  else if p ≤ 0.70 then 0.02 + (p - 0.40) * 0.60
  else if p ≤ 0.90 then 0.20 + (p - 0.70) * 2.0
  else 0.60 + (p - 0.90) * 4.0

/-- `RULSensorSimulator.get_next_sample`: returns `None` once
`current_sample >= total_samples`, otherwise emits a data packet and increments
`current_sample` by one.  The packet is abstracted to its deterministic
`sample_number` field (`current_sample + 1`); the remaining packet fields are
stochastic floats and timestamps. -/
def get_next_sample (s : SimState) : Option ℤ × SimState :=
  if s.current_sample ≥ s.total_samples then (none, s)
  else (some (s.current_sample + 1),
        { s with current_sample := s.current_sample + 1 })

/-- `RULSensorSimulator.reset_simulation`: zero the sample counter. -/
def reset_simulation (s : SimState) : SimState := { s with current_sample := 0 }

/-- `RULSensorSimulator.is_complete`. -/
def is_complete (s : SimState) : Bool := s.current_sample ≥ s.total_samples

/-- The `DegradationState` invariant `0 <= current_sample <= total_samples`. -/
def SimInv (s : SimState) : Prop :=
  0 ≤ s.current_sample ∧ s.current_sample ≤ s.total_samples

/-! ### Vibration sensor synthesis (`simulate_vibration_sensor`) -/

/-- `RULSensorSimulator.simulate_vibration_sensor`.  The Gaussian background
noise draw and the realized shock-spike value are passed as parameters
`noise` and `shock_spike`; every other quantity is computed from the state as
in the source.  Returns `(voltage, level)`. -/
noncomputable def simulate_vibration_sensor (s : SimState) (sampling_rate : ℚ)
    (noise shock_spike : ℝ) : ℝ × String :=
  let degradation : ℚ := get_degradation_factor
    ((s.current_sample : ℚ) / (s.total_samples : ℚ))
  let base_voltage : ℝ := 0.1
  let progress : ℚ := (s.current_sample : ℚ) / (s.total_samples : ℚ)
  let vibration_voltage : ℚ :=
    if progress ≤ 0.40 then degradation * 0.5
    else if progress ≤ 0.70 then 0.2 + (degradation - 0.02) * 1.5
    else if progress ≤ 0.90 then 0.7 + (degradation - 0.20) * 2.0
    else 1.4 + (degradation - 0.60) * 2.25
  let time_factor : ℚ := (s.current_sample : ℚ) / sampling_rate
  let main_freq : ℚ := 1.0 + degradation * 1.5
  let main_vibration : ℝ := (vibration_voltage : ℝ) * 0.3 *
    (1 + Real.sin (2 * Real.pi * (main_freq : ℝ) * (time_factor : ℝ)))
  let hf_vibration : ℝ :=
    if (0.20 : ℚ) < degradation then
      ((degradation : ℝ) - 0.20) * 0.25 *
        |Real.sin (2 * Real.pi * ((main_freq : ℝ) * 8) * (time_factor : ℝ))|
    else 0
  let total_voltage : ℝ :=
    base_voltage + main_vibration + hf_vibration + noise + shock_spike
  let voltage : ℝ := max 0 (min 3.3 total_voltage)
  let level : String :=
    if voltage < 0.5 then "Low/No Vibration"
    else if voltage < 1.2 then "Moderate Vibration"
    else "High Vibration"
  (voltage, level)

/-! ### RUL formatter (`webserver/app.py`, `SmartRULPredictor`) -/

/-- The duration bucket chosen by `predict_rul_smart`'s dispatch. -/
inductive Bucket where
  | months
  | weeks
  | days
  | hours
deriving DecidableEq, Repr

/-- The dictionary each `_format_*` helper returns: `value` (hours),
`formatted`, `unit`, and the two bucket-specific count fields
(`months`/`days`, `weeks`/`days`, `days`/`hours`, or `hours`/`minutes`),
held here as `primary`/`secondary`. -/
structure RULResult where
  value : ℚ
  formatted : String
  unit : Bucket
  primary : ℤ
  secondary : ℤ
deriving DecidableEq, Repr

/-- `SmartRULPredictor._format_months`. -/
def format_months (hours : ℚ) : RULResult :=
  let months := pytrunc (pyfloordiv hours (24 * 30))
  let days := pytrunc (pyfloordiv (pymod hours (24 * 30)) 24)
  { value := hours
    formatted := toString months ++ " month" ++ (if months ≠ 1 then "s" else "") ++
      (if days = 0 then "" else
        " " ++ toString days ++ " day" ++ (if days ≠ 1 then "s" else ""))
    unit := Bucket.months
    primary := months
    secondary := days }

/-- `SmartRULPredictor._format_weeks`. -/
def format_weeks (hours : ℚ) : RULResult :=
  let weeks := pytrunc (pyfloordiv hours (24 * 7))
  let days := pytrunc (pyfloordiv (pymod hours (24 * 7)) 24)
  { value := hours
    formatted := toString weeks ++ " week" ++ (if weeks ≠ 1 then "s" else "") ++
      (if days = 0 then "" else
        " " ++ toString days ++ " day" ++ (if days ≠ 1 then "s" else ""))
    unit := Bucket.weeks
    primary := weeks
    secondary := days }

/-- `SmartRULPredictor._format_days`. -/
def format_days (hours : ℚ) : RULResult :=
  let days := pytrunc (pyfloordiv hours 24)
  let rem := pytrunc (pymod hours 24)
  { value := hours
    formatted := toString days ++ " day" ++ (if days ≠ 1 then "s" else "") ++
      (if rem = 0 then "" else
        " " ++ toString rem ++ " hour" ++ (if rem ≠ 1 then "s" else ""))
    unit := Bucket.days
    primary := days
    secondary := rem }

/-- `SmartRULPredictor._format_hours`, including the 60-minute carry. -/
def format_hours (hours : ℚ) : RULResult :=
  let h0 := pytrunc hours
  let m0 := pyround ((hours - (h0 : ℚ)) * 60)
  let h := if m0 = 60 then h0 + 1 else h0
  let m := if m0 = 60 then 0 else m0
  { value := hours
    formatted := toString h ++ " hour" ++ (if h ≠ 1 then "s" else "") ++
      (if m = 0 then "" else
        " " ++ toString m ++ " minute" ++ (if m ≠ 1 then "s" else ""))
    unit := Bucket.hours
    primary := h
    secondary := m }

/-- The bucket-selection and formatting step of
`SmartRULPredictor.predict_rul_smart`, applied to the computed `rul_hours`:
top-down dispatch, first match wins. -/
def bucket_format (rul_hours : ℚ) : RULResult :=
  if rul_hours ≥ 24 * 30 then format_months rul_hours
  else if rul_hours ≥ 24 * 7 then format_weeks rul_hours
  else if rul_hours ≥ 1 then format_days rul_hours
  else format_hours rul_hours

/-- `SmartRULPredictor.predict_rul_smart` after the external model call:
`rul_hours = rul_units * time_unit_minutes / 60`, then bucket dispatch. -/
def predict_rul_smart (rul_units time_unit_minutes : ℚ) : RULResult :=
  bucket_format (rul_units * time_unit_minutes / 60)

/-- `get_health_status` (webserver/app.py). -/
def get_health_status (rul_hours : ℚ) : String :=
  if rul_hours > 24 * 30 then "🟢 EXCELLENT (>30 days)"
  else if rul_hours > 24 * 7 then "🟡 GOOD (>7 days)"
  else if rul_hours > 24 then "🟠 MODERATE (>1 day)"
  else if rul_hours > 12 then "🔴 POOR (>12 hours)"
  else "⚫ CRITICAL (<12 hours)"

/-! ### Statistical feature extraction

Shared numerics used by both `SensorFeatureTransform.extract_8_features`
(redpitaya side) and `extract_features` (webserver side).  A sensor window is
a `List ℚ`; the numpy/scipy aggregates are rationals except where a square
root or logarithm is taken. -/

/-- `np.mean(data)`. -/
def meanQ (l : List ℚ) : ℚ := l.sum / l.length

/-- `np.mean(data**2)`: the mean square, the radicand of the RMS. -/
def msQ (l : List ℚ) : ℚ := (l.map (fun x => x ^ 2)).sum / l.length

/-- `np.sqrt(np.mean(data**2))`: the RMS value. -/
noncomputable def rmsR (l : List ℚ) : ℝ := Real.sqrt (msQ l)

/-- `np.max(np.abs(data))`.  For a nonempty list this is the maximum of the
absolute values (the `0` seed never wins because every `|x|` is
nonnegative); numpy raises on an empty array. -/
def peakQ (l : List ℚ) : ℚ := (l.map (fun x => |x|)).foldr max 0

/-- The `k`-th central moment `np.mean((data - mean)**k)`. -/
def centralMoment (l : List ℚ) (k : ℕ) : ℚ :=
  (l.map (fun x => (x - meanQ l) ^ k)).sum / l.length

/-- `np.std(data)**2`: the population variance (second central moment). -/
def varQ (l : List ℚ) : ℚ := centralMoment l 2

/-- `np.std(data)`: the population standard deviation. -/
noncomputable def stdR (l : List ℚ) : ℝ := Real.sqrt (varQ l)

/-- `scipy.stats.kurtosis(data)` (Fisher, biased): `m4 / m2**2 - 3`, with
scipy's zero-variance guard returning the degenerate fallback `0`. -/
def scipyKurtosis (l : List ℚ) : ℚ :=
  if centralMoment l 2 = 0 then 0
  else centralMoment l 4 / centralMoment l 2 ^ 2 - 3

/-- `scipy.stats.skew(data)` (biased): `m3 / m2**1.5`, with scipy's
zero-variance guard returning the degenerate fallback `0`. -/
noncomputable def scipySkew (l : List ℚ) : ℝ :=
  if centralMoment l 2 = 0 then 0
  else (centralMoment l 3 : ℝ) / Real.sqrt (centralMoment l 2) ^ 3

/-! #### `np.histogram` -/

/-- Minimum of a sample window (`data.min()`); `0` on the empty list numpy
rejects. -/
def listMin (l : List ℚ) : ℚ :=
  match l with
  | [] => 0
  | x :: xs => xs.foldl min x

/-- Maximum of a sample window (`data.max()`). -/
def listMax (l : List ℚ) : ℚ :=
  match l with
  | [] => 0
  | x :: xs => xs.foldl max x

/-- The bin a value falls into, for `k` equal-width bins on `[lo, hi]`:
half-open bins, with the last bin closed on the right (numpy behaviour). -/
def binIdx (lo hi : ℚ) (k : ℕ) (x : ℚ) : ℕ :=
  min ⌊(x - lo) / (hi - lo) * k⌋.toNat (k - 1)

/-- The lower edge of the `np.histogram` range: `data.min()`, widened by
`0.5` when the data range is empty (numpy's degenerate-range rule). -/
def histLo (data : List ℚ) : ℚ :=
  if listMin data = listMax data then listMin data - 1/2 else listMin data

/-- The upper edge of the `np.histogram` range. -/
def histHi (data : List ℚ) : ℚ :=
  if listMin data = listMax data then listMax data + 1/2 else listMax data

/-- `np.histogram(data, bins=k)[0]`: per-bin counts. -/
def histCounts (data : List ℚ) (k : ℕ) : List ℕ :=
  (List.range k).map fun j =>
    (data.filter (fun x => binIdx (histLo data) (histHi data) k x = j)).length

/-- `np.histogram(data, bins=k, density=True)[0]`: counts divided by
`n * bin_width`. -/
def histDensity (data : List ℚ) (k : ℕ) : List ℚ :=
  (histCounts data k).map fun cnt : ℕ =>
    (cnt : ℚ) / ((data.length : ℚ) * ((histHi data - histLo data) / k))

/-- `scipy.stats.entropy(pk)` with natural base: normalize `pk` to sum one,
then `-Σ p * ln p`.  (Mathlib's `Real.log 0 = 0` realizes scipy's convention
that zero-probability terms contribute nothing.) -/
noncomputable def scipyEntropy (pk : List ℚ) : ℝ :=
  -((pk.map (fun p => ((p / pk.sum : ℚ) : ℝ) * Real.log ((p / pk.sum : ℚ) : ℝ))).sum)

/-- The entropy feature of `SensorFeatureTransform.extract_8_features`:
density histogram on `min(50, n // 2)` bins, zero bins dropped, normalized,
Shannon entropy; `0` when fewer than two nonzero bins remain or `n ≤ 1`. -/
noncomputable def sftEntropy (data : List ℚ) : ℝ :=
  if 1 < data.length then
    let hist := (histDensity data (min 50 (data.length / 2))).filter (fun h => 0 < h)
    if 1 < hist.length then scipyEntropy (hist.map (fun h => h / hist.sum))
    else 0
  else 0

/-- `_safe_entropy(x, bins=10)` (webserver/app.py): counts histogram,
normalized, `1e-12` smoothing added to every bin, scipy entropy. -/
noncomputable def safe_entropy (data : List ℚ) (bins : ℕ) : ℝ :=
  let hist := histCounts data bins
  let s : ℚ := (hist.map (fun cnt : ℕ => (cnt : ℚ))).sum
  if s = 0 then 0
  else scipyEntropy
    ((hist.map (fun cnt : ℕ => (cnt : ℚ) / s)).map (fun p => p + 1 / 10 ^ 12))

/-- The 8-dimensional statistical fingerprint both extractors produce
(`rms, peak, mean, std_dev, kurtosis, skewness, crest_factor, entropy`). -/
structure Features8 where
  rms : ℝ
  peak : ℝ
  mean : ℝ
  std_dev : ℝ
  kurtosis : ℝ
  skewness : ℝ
  crest_factor : ℝ
  entropy : ℝ

/-- `SensorFeatureTransform.extract_8_features` (redpitaya acquisition side):
kurtosis/skewness guarded by `len(data) > 1 and std_dev > 0`, crest factor
guarded by `rms > 0`, adaptive-bin entropy. -/
noncomputable def extract_8_features (data : List ℚ) : Features8 :=
  { rms := rmsR data
    peak := (peakQ data : ℝ)
    mean := (meanQ data : ℝ)
    std_dev := stdR data
    kurtosis := if 1 < data.length ∧ 0 < stdR data then (scipyKurtosis data : ℝ) else 0
    skewness := if 1 < data.length ∧ 0 < stdR data then scipySkew data else 0
    crest_factor := if 0 < rmsR data then (peakQ data : ℝ) / rmsR data else 0
    entropy := sftEntropy data }

/-- `extract_features` (webserver/app.py): unguarded scipy kurtosis/skewness,
crest factor guarded by `rms_val != 0`, fixed 10-bin smoothed entropy. -/
noncomputable def extract_features (data : List ℚ) : Features8 :=
  { rms := rmsR data
    peak := (peakQ data : ℝ)
    mean := (meanQ data : ℝ)
    std_dev := stdR data
    kurtosis := (scipyKurtosis data : ℝ)
    skewness := scipySkew data
    crest_factor := if rmsR data ≠ 0 then (peakQ data : ℝ) / rmsR data else 0
    entropy := safe_entropy data 10 }

/-! ## Helper lemmas on constant windows and entropy -/

theorem sum_of_const (l : List ℚ) (c : ℚ) (hc : ∀ x ∈ l, x = c) :
    l.sum = (l.length : ℚ) * c := by
  rw [List.sum_eq_card_nsmul l c hc, nsmul_eq_mul]

theorem meanQ_const (l : List ℚ) (c : ℚ) (hne : l ≠ []) (hc : ∀ x ∈ l, x = c) :
    meanQ l = c := by
  have hl : (l.length : ℚ) ≠ 0 :=
    Nat.cast_ne_zero.mpr (List.length_pos.mpr hne).ne'
  rw [meanQ, sum_of_const l c hc]
  field_simp

theorem msQ_const (l : List ℚ) (c : ℚ) (hne : l ≠ []) (hc : ∀ x ∈ l, x = c) :
    msQ l = c ^ 2 := by
  have hl : (l.length : ℚ) ≠ 0 :=
    Nat.cast_ne_zero.mpr (List.length_pos.mpr hne).ne'
  have hmap : ∀ y ∈ l.map (fun x => x ^ 2), y = c ^ 2 := by
    intro y hy
    obtain ⟨x, hx, rfl⟩ := List.mem_map.mp hy
    rw [hc x hx]
  rw [msQ, sum_of_const _ _ hmap, List.length_map]
  field_simp

theorem centralMoment_const (l : List ℚ) (c : ℚ) (k : ℕ) (hk : k ≠ 0)
    (hne : l ≠ []) (hc : ∀ x ∈ l, x = c) : centralMoment l k = 0 := by
  have hmap : ∀ y ∈ l.map (fun x => (x - meanQ l) ^ k), y = 0 := by
    intro y hy
    obtain ⟨x, hx, rfl⟩ := List.mem_map.mp hy
    rw [hc x hx, meanQ_const l c hne hc, sub_self, zero_pow hk]
  rw [centralMoment, sum_of_const _ _ hmap, mul_zero, zero_div]

theorem varQ_const (l : List ℚ) (c : ℚ) (hne : l ≠ []) (hc : ∀ x ∈ l, x = c) :
    varQ l = 0 :=
  centralMoment_const l c 2 (by norm_num) hne hc

theorem stdR_const (l : List ℚ) (c : ℚ) (hne : l ≠ []) (hc : ∀ x ∈ l, x = c) :
    stdR l = 0 := by
  rw [stdR, varQ_const l c hne hc]
  simp

theorem rmsR_const (l : List ℚ) (c : ℚ) (hne : l ≠ []) (hc : ∀ x ∈ l, x = c) :
    rmsR l = |(c : ℝ)| := by
  rw [rmsR, msQ_const l c hne hc]
  have h2 : ((c ^ 2 : ℚ) : ℝ) = (c : ℝ) ^ 2 := by push_cast; ring
  rw [h2, Real.sqrt_sq_eq_abs]

theorem foldr_max_of_const (l : List ℚ) (a : ℚ) (ha : 0 ≤ a) (hne : l ≠ [])
    (hc : ∀ x ∈ l, x = a) : l.foldr max 0 = a := by
  induction l with
  | nil => exact absurd rfl hne
  | cons x xs ih =>
    have hx : x = a := hc x (by simp)
    rcases eq_or_ne xs [] with hxs | hxs
    · subst hxs
      simp [hx, max_eq_left ha]
    · rw [List.foldr_cons, ih hxs (fun y hy => hc y (by simp [hy])), hx, max_self]

theorem peakQ_const (l : List ℚ) (c : ℚ) (hne : l ≠ []) (hc : ∀ x ∈ l, x = c) :
    peakQ l = |c| := by
  refine foldr_max_of_const _ _ (abs_nonneg c) (by simpa using hne) ?_
  intro y hy
  obtain ⟨x, hx, rfl⟩ := List.mem_map.mp hy
  rw [hc x hx]

theorem histCounts_const (l : List ℚ) (c : ℚ) (hc : ∀ x ∈ l, x = c) (k : ℕ) :
    histCounts l k = (List.range k).map
      (fun j => if binIdx (histLo l) (histHi l) k c = j then l.length else 0) := by
  rw [histCounts]
  congr 1
  funext j
  by_cases hj : binIdx (histLo l) (histHi l) k c = j
  · rw [if_pos hj, List.filter_eq_self.mpr]
    intro x hx
    simp [hc x hx, hj]
  · rw [if_neg hj, List.filter_eq_nil_iff.mpr, List.length_nil]
    intro x hx
    simp [hc x hx, hj]

theorem histDensity_const_posLength (l : List ℚ) (c : ℚ) (hc : ∀ x ∈ l, x = c)
    (k : ℕ) : ((histDensity l k).filter (fun h => 0 < h)).length ≤ 1 := by
  rw [histDensity, histCounts_const l c hc k, List.map_map,
    ← List.countP_eq_length_filter, List.countP_map]
  set j0 := binIdx (histLo l) (histHi l) k c with hj0
  calc List.countP _ (List.range k)
      ≤ List.countP (fun j => j == j0) (List.range k) := by
        refine List.countP_mono_left fun j _ hpj => ?_
        by_contra hne
        have hji : j0 ≠ j := fun h => hne (by simp [h])
        simp only [Function.comp_apply, if_neg hji, decide_eq_true_eq] at hpj
        norm_num at hpj
    _ = (List.range k).count j0 := rfl
    _ ≤ 1 := List.nodup_iff_count_le_one.mp (List.nodup_range k) j0

theorem sftEntropy_const (l : List ℚ) (c : ℚ) (hc : ∀ x ∈ l, x = c) :
    sftEntropy l = 0 := by
  have hlen := histDensity_const_posLength l c hc (min 50 (l.length / 2))
  simp only [sftEntropy]
  split_ifs with h1 h2
  · omega
  · rfl
  · rfl

theorem list_sum_neg (l : List ℝ) (hne : l ≠ []) (h : ∀ x ∈ l, x < 0) :
    l.sum < 0 := by
  induction l with
  | nil => exact absurd rfl hne
  | cons x xs ih =>
    rw [List.sum_cons]
    rcases eq_or_ne xs [] with hxs | hxs
    · subst hxs
      simpa using h x (by simp)
    · have hx := h x (by simp)
      have hxs' := ih hxs (fun y hy => h y (by simp [hy]))
      linarith

theorem scipyEntropy_pos (pk : List ℚ) (hne : pk ≠ [])
    (h : ∀ p ∈ pk, 0 < p ∧ p < pk.sum) : 0 < scipyEntropy pk := by
  rw [scipyEntropy, neg_pos]
  refine list_sum_neg _ (by simpa using hne) ?_
  intro y hy
  obtain ⟨p, hp, rfl⟩ := List.mem_map.mp hy
  obtain ⟨hp0, hps⟩ := h p hp
  have hS : 0 < pk.sum := lt_trans hp0 hps
  have h1 : (0 : ℚ) < p / pk.sum := div_pos hp0 hS
  have h2 : p / pk.sum < 1 := (div_lt_one hS).mpr hps
  have c1 : (0 : ℝ) < ((p / pk.sum : ℚ) : ℝ) := by exact_mod_cast h1
  have c2 : ((p / pk.sum : ℚ) : ℝ) < 1 := by exact_mod_cast h2
  exact mul_neg_of_pos_of_neg c1 (Real.log_neg c1 c2)

theorem sum_sq_dev (l : List ℚ) (μ : ℚ) :
    (l.map (fun x => (x - μ) ^ 2)).sum =
      (l.map (fun x => x ^ 2)).sum - 2 * μ * l.sum + l.length * μ ^ 2 := by
  induction l with
  | nil => simp
  | cons x xs ih =>
    simp only [List.map_cons, List.sum_cons, ih, List.length_cons]
    push_cast
    ring

theorem msQ_eq_varQ_add_sq (l : List ℚ) (hne : l ≠ []) :
    msQ l = varQ l + meanQ l ^ 2 := by
  have hl : (l.length : ℚ) ≠ 0 :=
    Nat.cast_ne_zero.mpr (List.length_pos.mpr hne).ne'
  rw [varQ, centralMoment, sum_sq_dev, msQ, meanQ]
  field_simp
  ring

/-! ## Claim theorems -/

/-- C1: on `[0,1]` the degradation factor follows the four stated linear
segments, and at each exact breakpoint `0.40`, `0.70`, `0.90` the value of the
function (the left segment) agrees with the incoming right segment to within
`1e-9` (in fact exactly). -/
theorem degradation_factor_piecewise_and_continuous (p : ℚ) (h0 : 0 ≤ p) (h1 : p ≤ 1) :
    (p ≤ 0.40 → get_degradation_factor p = p * 0.05) ∧
    (0.40 < p → p ≤ 0.70 → get_degradation_factor p = 0.02 + (p - 0.40) * 0.60) ∧
    (0.70 < p → p ≤ 0.90 → get_degradation_factor p = 0.20 + (p - 0.70) * 2.0) ∧
    (0.90 < p → p ≤ 1 → get_degradation_factor p = 0.60 + (p - 0.90) * 4.0) ∧
    |get_degradation_factor 0.40 - (0.02 + ((0.40 : ℚ) - 0.40) * 0.60)| < 1 / 10 ^ 9 ∧
    |get_degradation_factor 0.70 - (0.20 + ((0.70 : ℚ) - 0.70) * 2.0)| < 1 / 10 ^ 9 ∧
    |get_degradation_factor 0.90 - (0.60 + ((0.90 : ℚ) - 0.90) * 4.0)| < 1 / 10 ^ 9 := by
  refine ⟨fun h => ?_, fun h h' => ?_, fun h h' => ?_, fun h _ => ?_, ?_, ?_, ?_⟩
  · rw [get_degradation_factor, if_pos h]
  · rw [get_degradation_factor, if_neg (by linarith), if_pos h']
  · rw [get_degradation_factor, if_neg (by linarith), if_neg (by linarith), if_pos h']
  · rw [get_degradation_factor, if_neg (by linarith), if_neg (by linarith),
      if_neg (by linarith)]
  · norm_num [get_degradation_factor]
  · norm_num [get_degradation_factor]
  · norm_num [get_degradation_factor]

/-- Witness for C1 at `p = 1/2`. -/
theorem degradation_factor_piecewise_and_continuous_witness :
    (0 : ℚ) ≤ 1/2 ∧ (1/2 : ℚ) ≤ 1 ∧
    ((1/2 : ℚ) ≤ 0.40 → get_degradation_factor (1/2) = 1/2 * 0.05) ∧
    (0.40 < (1/2 : ℚ) → (1/2 : ℚ) ≤ 0.70 →
      get_degradation_factor (1/2) = 0.02 + (1/2 - 0.40) * 0.60) ∧
    (0.70 < (1/2 : ℚ) → (1/2 : ℚ) ≤ 0.90 →
      get_degradation_factor (1/2) = 0.20 + (1/2 - 0.70) * 2.0) ∧
    (0.90 < (1/2 : ℚ) → (1/2 : ℚ) ≤ 1 →
      get_degradation_factor (1/2) = 0.60 + (1/2 - 0.90) * 4.0) ∧
    |get_degradation_factor 0.40 - (0.02 + ((0.40 : ℚ) - 0.40) * 0.60)| < 1 / 10 ^ 9 ∧
    |get_degradation_factor 0.70 - (0.20 + ((0.70 : ℚ) - 0.70) * 2.0)| < 1 / 10 ^ 9 ∧
    |get_degradation_factor 0.90 - (0.60 + ((0.90 : ℚ) - 0.90) * 4.0)| < 1 / 10 ^ 9 :=
  ⟨by norm_num, by norm_num,
    degradation_factor_piecewise_and_continuous (1/2) (by norm_num) (by norm_num)⟩

/-- C7: the degradation factor is non-decreasing over `[0,1]`. -/
theorem degradation_factor_monotone (p1 p2 : ℚ) (h0 : 0 ≤ p1) (h12 : p1 ≤ p2)
    (h1 : p2 ≤ 1) : get_degradation_factor p1 ≤ get_degradation_factor p2 := by
  unfold get_degradation_factor
  split_ifs <;> linarith

/-- Witness for C7 at `(p1, p2) = (1/4, 1/2)`. -/
theorem degradation_factor_monotone_witness :
    (0 : ℚ) ≤ 1/4 ∧ (1/4 : ℚ) ≤ 1/2 ∧ (1/2 : ℚ) ≤ 1 ∧
    get_degradation_factor (1/4) ≤ get_degradation_factor (1/2) :=
  ⟨by norm_num, by norm_num, by norm_num,
    degradation_factor_monotone (1/4) (1/2) (by norm_num) (by norm_num) (by norm_num)⟩

/-- C2 counterexample: at `hours = 719.999` the dispatch selects the weeks
bucket (`719.999 >= 168`), not the days bucket the claim states. -/
theorem bucket_719_999_not_days :
    (bucket_format (719999/1000)).unit ≠ Bucket.days := by
  have hw : (bucket_format (719999/1000)).unit = Bucket.weeks := by
    rw [bucket_format, if_neg (by norm_num), if_pos (by norm_num)]
    rfl
  rw [hw]
  decide

/-- C2 (amended): boundary values resolve as the top-down dispatch dictates —
`719.999 → weeks` (not days), `720 → months`, `167.999 → days`,
`168 → weeks`, `0.999 → hours`, `1 → days` — and every hours value selects
exactly one of the four buckets. -/
theorem bucket_selection_boundaries :
    (bucket_format (719999/1000)).unit = Bucket.weeks ∧
    (bucket_format 720).unit = Bucket.months ∧
    (bucket_format (167999/1000)).unit = Bucket.days ∧
    (bucket_format 168).unit = Bucket.weeks ∧
    (bucket_format (999/1000)).unit = Bucket.hours ∧
    (bucket_format 1).unit = Bucket.days ∧
    ∀ h : ℚ,
      ([Bucket.months, Bucket.weeks, Bucket.days, Bucket.hours].count
        (bucket_format h).unit) = 1 := by
  refine ⟨?_, ?_, ?_, ?_, ?_, ?_, fun h => ?_⟩
  · rw [bucket_format, if_neg (by norm_num), if_pos (by norm_num)]
    rfl
  · rw [bucket_format, if_pos (by norm_num)]
    rfl
  · rw [bucket_format, if_neg (by norm_num), if_neg (by norm_num), if_pos (by norm_num)]
    rfl
  · rw [bucket_format, if_neg (by norm_num), if_pos (by norm_num)]
    rfl
  · rw [bucket_format, if_neg (by norm_num), if_neg (by norm_num), if_neg (by norm_num)]
    rfl
  · rw [bucket_format, if_neg (by norm_num), if_neg (by norm_num), if_pos (by norm_num)]
    rfl
  · cases hb : (bucket_format h).unit <;> simp [hb]

/-- C3 counterexample: `get_health_status 24` is the POOR label, not the
MODERATE label the claim's inclusive-boundary reading states. -/
theorem health_status_24_not_moderate :
    get_health_status 24 ≠ "🟠 MODERATE (>1 day)" := by
  have hp : get_health_status 24 = "🔴 POOR (>12 hours)" := by
    rw [get_health_status, if_neg (by norm_num), if_neg (by norm_num),
      if_neg (by norm_num), if_pos (by norm_num)]
  rw [hp]
  decide

/-- C3 (amended): the classifier has 5 ordered bands with fixed thresholds
`>720`, `>168`, `>24`, `>12`, else — the band boundaries are exclusive (a
value must strictly exceed the threshold), so `hours = 24` falls to the POOR
band; `24*30+1` is EXCELLENT and `11.999` is CRITICAL as claimed. -/
theorem health_status_strict_bands (h : ℚ) :
    (24 * 30 < h → get_health_status h = "🟢 EXCELLENT (>30 days)") ∧
    (24 * 7 < h → h ≤ 24 * 30 → get_health_status h = "🟡 GOOD (>7 days)") ∧
    (24 < h → h ≤ 24 * 7 → get_health_status h = "🟠 MODERATE (>1 day)") ∧
    (12 < h → h ≤ 24 → get_health_status h = "🔴 POOR (>12 hours)") ∧
    (h ≤ 12 → get_health_status h = "⚫ CRITICAL (<12 hours)") ∧
    get_health_status (24 * 30 + 1) = "🟢 EXCELLENT (>30 days)" ∧
    get_health_status 24 = "🔴 POOR (>12 hours)" ∧
    get_health_status (11999/1000) = "⚫ CRITICAL (<12 hours)" := by
  refine ⟨fun h1 => ?_, fun h1 h2 => ?_, fun h1 h2 => ?_, fun h1 h2 => ?_,
    fun h1 => ?_,
    by rw [get_health_status, if_pos (by norm_num)],
    by rw [get_health_status, if_neg (by norm_num), if_neg (by norm_num),
        if_neg (by norm_num), if_pos (by norm_num)],
    by rw [get_health_status, if_neg (by norm_num), if_neg (by norm_num),
        if_neg (by norm_num), if_neg (by norm_num)]⟩
  · rw [get_health_status, if_pos (by linarith)]
  · rw [get_health_status, if_neg (by linarith), if_pos (by linarith)]
  · rw [get_health_status, if_neg (by linarith), if_neg (by linarith),
      if_pos (by linarith)]
  · rw [get_health_status, if_neg (by linarith), if_neg (by linarith),
      if_neg (by linarith), if_pos (by linarith)]
  · rw [get_health_status, if_neg (by linarith), if_neg (by linarith),
      if_neg (by linarith), if_neg (by linarith)]

/-- Witness for C3 at `h = 25` (MODERATE band). -/
theorem health_status_strict_bands_witness :
    (24 : ℚ) < 25 ∧ (25 : ℚ) ≤ 24 * 7 ∧
    get_health_status 25 = "🟠 MODERATE (>1 day)" :=
  ⟨by norm_num, by norm_num,
    (health_status_strict_bands 25).2.2.1 (by norm_num) (by norm_num)⟩

/-- Evaluation of the C4 pipeline at `pred = 6`, `minutes_per_unit = 10`:
`hours = 1`, days bucket, `days = 0`, `rem = 1`. -/
theorem predict_six_eval :
    predict_rul_smart 6 10 =
      { value := 1, formatted := "0 days 1 hour", unit := Bucket.days,
        primary := 0, secondary := 1 } := by
  have h1 : (6 * 10 / 60 : ℚ) = 1 := by norm_num
  have hb : predict_rul_smart 6 10 = format_days 1 := by
    rw [predict_rul_smart, h1, bucket_format, if_neg (by norm_num),
      if_neg (by norm_num), if_pos (by norm_num)]
  have hdays : pytrunc (pyfloordiv 1 24) = 0 := by
    norm_num [pytrunc, pyfloordiv]
  have hrem : pytrunc (pymod 1 24) = 1 := by
    norm_num [pytrunc, pymod]
  rw [hb, format_days]
  simp only [hdays, hrem]
  decide

/-- C4 counterexample: `pred = 6`, `minutes_per_unit = 10` yields
`hours = 1.0` but the rendered string is `"0 days 1 hour"`, not `"1 day"`. -/
theorem predict_six_not_one_day :
    (predict_rul_smart 6 10).formatted ≠ "1 day" := by
  rw [predict_six_eval]
  decide

/-- C4 (amended): for `pred = 6` with `minutes_per_unit = 10` the formatter
computes `hours = 1.0` and selects the days bucket, but `_format_days`
decomposes `1.0` as `days = 0`, `rem = 1`, so the nonzero 1-hour remainder is
included and the rendered string is `"0 days 1 hour"`. -/
theorem predict_six_units_result :
    (predict_rul_smart 6 10).value = 1 ∧
    (predict_rul_smart 6 10).unit = Bucket.days ∧
    (predict_rul_smart 6 10).formatted = "0 days 1 hour" ∧
    (predict_rul_smart 6 10).primary = 0 ∧
    (predict_rul_smart 6 10).secondary = 1 := by
  rw [predict_six_eval]
  exact ⟨rfl, rfl, rfl, rfl, rfl⟩

/-- C8: while `current_sample < total_samples` the advance operation returns
a sample (`sample_number = current_sample + 1`) and increments the counter by
exactly one; once `current_sample = total_samples` it returns the terminal
`none` and leaves the state unchanged; `reset_simulation` zeroes the
counter. -/
theorem get_next_sample_sequencing (s : SimState)
    (hle : s.current_sample ≤ s.total_samples) :
    (s.current_sample < s.total_samples →
      get_next_sample s =
        (some (s.current_sample + 1),
          { total_samples := s.total_samples,
            current_sample := s.current_sample + 1 })) ∧
    (s.current_sample = s.total_samples → get_next_sample s = (none, s)) ∧
    (reset_simulation s).current_sample = 0 := by
  refine ⟨fun h => ?_, fun h => ?_, rfl⟩
  · rw [get_next_sample, if_neg (not_le.mpr h)]
  · rw [get_next_sample, if_pos (le_of_eq h.symm)]

/-- Witness for C8 at the state `⟨total_samples := 10, current_sample := 3⟩`. -/
theorem get_next_sample_sequencing_witness :
    (3 : ℤ) ≤ 10 ∧
    get_next_sample ⟨10, 3⟩ = (some 4, ⟨10, 4⟩) ∧
    (reset_simulation ⟨10, 3⟩).current_sample = 0 := by
  have h := get_next_sample_sequencing ⟨10, 3⟩ (by norm_num)
  exact ⟨by norm_num, h.1 (by norm_num), h.2.2⟩

/-- C9: the `DegradationState` invariant `0 ≤ current_sample ≤ total_samples`
holds after construction (whenever the configuration yields a nonnegative
`total_samples`) and is preserved by `get_next_sample` and
`reset_simulation`; the remaining operations (`is_complete` and the derived
queries) take the state immutably. -/
theorem sim_state_invariant (d r : ℚ) (s : SimState)
    (hinit : 0 ≤ (init_state d r).total_samples) (hs : SimInv s) :
    SimInv (init_state d r) ∧ SimInv (get_next_sample s).2 ∧
    SimInv (reset_simulation s) := by
  obtain ⟨hs0, hst⟩ := hs
  refine ⟨⟨le_refl 0, hinit⟩, ?_, le_refl 0, le_trans hs0 hst⟩
  rw [get_next_sample]
  split_ifs with h
  · exact ⟨hs0, hst⟩
  · constructor
    · show (0 : ℤ) ≤ s.current_sample + 1
      omega
    · show s.current_sample + 1 ≤ s.total_samples
      omega

/-- Witness for C9 with `duration = 180`, `sampling_rate = 1`, state
`⟨180, 0⟩`. -/
theorem sim_state_invariant_witness :
    0 ≤ (init_state 180 1).total_samples ∧ SimInv (⟨180, 0⟩ : SimState) ∧
    SimInv (init_state 180 1) ∧ SimInv (reset_simulation ⟨180, 0⟩) := by
  have htot : 0 ≤ (init_state 180 1).total_samples := by
    norm_num [init_state, pytrunc]
  have hs : SimInv (⟨180, 0⟩ : SimState) := ⟨by norm_num, by norm_num⟩
  have h := sim_state_invariant 180 1 ⟨180, 0⟩ htot hs
  exact ⟨htot, hs, h.1, h.2.2⟩

/-- C10: for every simulator state and every realization of the Gaussian
noise and shock-spike draws, the returned voltage lies in the sensor range
`[0, 3.3]`, and the returned level string is determined by the clamped
voltage alone via the thresholds `< 0.5` (Low), `< 1.2` (Moderate), else
High. -/
theorem vibration_voltage_clamped_and_classified (s : SimState)
    (sampling_rate : ℚ) (noise shock_spike : ℝ) :
    0 ≤ (simulate_vibration_sensor s sampling_rate noise shock_spike).1 ∧
    (simulate_vibration_sensor s sampling_rate noise shock_spike).1 ≤ 3.3 ∧
    (simulate_vibration_sensor s sampling_rate noise shock_spike).2 =
      (if (simulate_vibration_sensor s sampling_rate noise shock_spike).1 < 0.5
        then "Low/No Vibration"
        else if (simulate_vibration_sensor s sampling_rate noise shock_spike).1 < 1.2
          then "Moderate Vibration"
          else "High Vibration") := by
  unfold simulate_vibration_sensor
  dsimp only
  refine ⟨le_max_left 0 _, max_le (by norm_num) (min_le_left _ _), rfl⟩

/-- C5: on every constant nonempty window (`n` copies of `c`, `n ≥ 1`) the
acquisition-side 8-feature extraction returns `std_dev = 0`, `kurtosis = 0`,
`skewness = 0` and `entropy = 0`, with `mean = c`, `rms = peak = |c|`, and
`crest_factor = 1` whenever `c ≠ 0`. -/
theorem constant_sequence_features (n : ℕ) (c : ℚ) (hn : 0 < n) :
    (extract_8_features (List.replicate n c)).std_dev = 0 ∧
    (extract_8_features (List.replicate n c)).kurtosis = 0 ∧
    (extract_8_features (List.replicate n c)).skewness = 0 ∧
    (extract_8_features (List.replicate n c)).entropy = 0 ∧
    (extract_8_features (List.replicate n c)).mean = (c : ℝ) ∧
    (extract_8_features (List.replicate n c)).rms = |(c : ℝ)| ∧
    (extract_8_features (List.replicate n c)).peak = |(c : ℝ)| ∧
    (c ≠ 0 → (extract_8_features (List.replicate n c)).crest_factor = 1) := by
  set L := List.replicate n c with hL
  have hne : L ≠ [] := by
    rw [hL]
    simp [hn.ne']
  have hc : ∀ x ∈ L, x = c := fun x hx => List.eq_of_mem_replicate (hL ▸ hx)
  have hstd : stdR L = 0 := stdR_const L c hne hc
  have hguard : ¬(1 < L.length ∧ 0 < stdR L) := by
    rintro ⟨-, habs⟩
    rw [hstd] at habs
    exact lt_irrefl 0 habs
  simp only [extract_8_features]
  refine ⟨hstd, if_neg hguard, if_neg hguard, sftEntropy_const L c hc,
    by rw [meanQ_const L c hne hc], rmsR_const L c hne hc,
    by rw [peakQ_const L c hne hc, Rat.cast_abs], fun hc0 => ?_⟩
  have hrms : rmsR L = |(c : ℝ)| := rmsR_const L c hne hc
  have hpos : 0 < rmsR L := by
    rw [hrms]
    exact abs_pos.mpr (Rat.cast_ne_zero.mpr hc0)
  rw [if_pos hpos, peakQ_const L c hne hc, Rat.cast_abs, hrms,
    div_self (abs_pos.mpr (Rat.cast_ne_zero.mpr hc0)).ne']

/-- Witness for C5: the 100-sample all-ones window. -/
theorem constant_sequence_features_witness :
    0 < 100 ∧
    (extract_8_features (List.replicate 100 (1 : ℚ))).std_dev = 0 ∧
    (extract_8_features (List.replicate 100 (1 : ℚ))).kurtosis = 0 ∧
    (extract_8_features (List.replicate 100 (1 : ℚ))).skewness = 0 ∧
    (extract_8_features (List.replicate 100 (1 : ℚ))).entropy = 0 ∧
    (extract_8_features (List.replicate 100 (1 : ℚ))).mean = ((1 : ℚ) : ℝ) ∧
    (extract_8_features (List.replicate 100 (1 : ℚ))).rms = |((1 : ℚ) : ℝ)| ∧
    (extract_8_features (List.replicate 100 (1 : ℚ))).peak = |((1 : ℚ) : ℝ)| ∧
    (extract_8_features (List.replicate 100 (1 : ℚ))).crest_factor = 1 := by
  have h := constant_sequence_features 100 1 (by norm_num)
  exact ⟨by norm_num, h.1, h.2.1, h.2.2.1, h.2.2.2.1, h.2.2.2.2.1,
    h.2.2.2.2.2.1, h.2.2.2.2.2.2.1, h.2.2.2.2.2.2.2 (by norm_num)⟩

/-- C6 counterexample: on the constant window `[1, 1, 1, 1]` the two
extractors disagree already in the entropy feature — the acquisition side
drops zero bins and returns exactly `0`, while the webserver's `_safe_entropy`
adds `1e-12` to every one of its 10 fixed bins and returns a strictly
positive value. -/
theorem extractors_differ_on_constant_window :
    (extract_features [1, 1, 1, 1]).entropy ≠
      (extract_8_features [1, 1, 1, 1]).entropy := by
  have hc : ∀ x ∈ ([1, 1, 1, 1] : List ℚ), x = 1 := by
    intro x hx
    simp only [List.mem_cons, List.not_mem_nil, or_false] at hx
    rcases hx with h | h | h | h <;> exact h
  have hsft : (extract_8_features [1, 1, 1, 1]).entropy = 0 :=
    sftEntropy_const [1, 1, 1, 1] 1 hc
  rw [hsft]
  show safe_entropy [1, 1, 1, 1] 10 ≠ 0
  have hlo : histLo [1, 1, 1, 1] = 1/2 := by
    norm_num [histLo, listMin, listMax, List.foldl_cons, List.foldl_nil]
  have hhi : histHi [1, 1, 1, 1] = 3/2 := by
    norm_num [histHi, listMin, listMax, List.foldl_cons, List.foldl_nil]
  have hbin : binIdx (1/2) (3/2) 10 1 = 5 := by
    rw [binIdx]
    have h5 : ⌊((1 : ℚ) - 1/2) / ((3/2 : ℚ) - 1/2) * ((10 : ℕ) : ℚ)⌋ = 5 := by
      norm_num
    rw [h5]
    rfl
  have hcounts : histCounts [1, 1, 1, 1] 10 = [0, 0, 0, 0, 0, 4, 0, 0, 0, 0] := by
    rw [histCounts_const [1, 1, 1, 1] 1 hc 10]
    simp only [hlo, hhi, hbin, List.length_cons, List.length_nil]
    decide
  have hpos : 0 < safe_entropy [1, 1, 1, 1] 10 := by
    simp only [safe_entropy, hcounts]
    have hsum : ((([0, 0, 0, 0, 0, 4, 0, 0, 0, 0] : List ℕ).map
        (fun cnt : ℕ => (cnt : ℚ))).sum) = 4 := by
      norm_num
    simp only [hsum]
    rw [if_neg (by norm_num)]
    have hQ : ((([0, 0, 0, 0, 0, 4, 0, 0, 0, 0] : List ℕ).map
        (fun cnt : ℕ => (cnt : ℚ) / 4)).map (fun p => p + 1 / 10 ^ 12)) =
        [1/10^12, 1/10^12, 1/10^12, 1/10^12, 1/10^12, 1 + 1/10^12,
          1/10^12, 1/10^12, 1/10^12, 1/10^12] := by
      norm_num
    rw [hQ]
    refine scipyEntropy_pos _ (by simp) ?_
    have hsumQ : ([1/10^12, 1/10^12, 1/10^12, 1/10^12, 1/10^12, 1 + 1/10^12,
        1/10^12, 1/10^12, 1/10^12, 1/10^12] : List ℚ).sum = 1 + 10/10^12 := by
      norm_num
    intro p hp
    rw [hsumQ]
    simp only [List.mem_cons, List.not_mem_nil, or_false] at hp
    rcases hp with h | h | h | h | h | h | h | h | h | h <;> rw [h] <;>
      exact ⟨by norm_num, by norm_num⟩
  exact hpos.ne'

/-- C6 (amended): on every window with more than one sample and positive
variance the two extractors agree on the seven features `rms`, `peak`,
`mean`, `std_dev`, `kurtosis`, `skewness` and `crest_factor`; the entropy
features use different histograms (10 fixed smoothed bins versus
`min(50, n // 2)` bins with zero bins dropped) and differ in general, so the
full 8-feature vectors are not identical for every input. -/
theorem extractors_agree_on_nonentropy (data : List ℚ) (hlen : 1 < data.length)
    (hvar : 0 < varQ data) :
    (extract_features data).rms = (extract_8_features data).rms ∧
    (extract_features data).peak = (extract_8_features data).peak ∧
    (extract_features data).mean = (extract_8_features data).mean ∧
    (extract_features data).std_dev = (extract_8_features data).std_dev ∧
    (extract_features data).kurtosis = (extract_8_features data).kurtosis ∧
    (extract_features data).skewness = (extract_8_features data).skewness ∧
    (extract_features data).crest_factor = (extract_8_features data).crest_factor := by
  have hne : data ≠ [] := by
    intro h
    rw [h] at hlen
    simp at hlen
  have hstd : 0 < stdR data := Real.sqrt_pos.mpr (by exact_mod_cast hvar)
  have hmsq : 0 < msQ data := by
    have h := msQ_eq_varQ_add_sq data hne
    nlinarith [sq_nonneg (meanQ data)]
  have hrms : 0 < rmsR data := Real.sqrt_pos.mpr (by exact_mod_cast hmsq)
  refine ⟨rfl, rfl, rfl, rfl, ?_, ?_, ?_⟩
  · show (scipyKurtosis data : ℝ) =
      if 1 < data.length ∧ 0 < stdR data then (scipyKurtosis data : ℝ) else 0
    rw [if_pos ⟨hlen, hstd⟩]
  · show scipySkew data =
      if 1 < data.length ∧ 0 < stdR data then scipySkew data else 0
    rw [if_pos ⟨hlen, hstd⟩]
  · show (if rmsR data ≠ 0 then (peakQ data : ℝ) / rmsR data else 0) =
      if 0 < rmsR data then (peakQ data : ℝ) / rmsR data else 0
    rw [if_pos hrms.ne', if_pos hrms]

/-- Witness for C6's amended agreement at the window `[0, 1]`. -/
theorem extractors_agree_on_nonentropy_witness :
    1 < ([0, 1] : List ℚ).length ∧ 0 < varQ [0, 1] ∧
    (extract_features [0, 1]).kurtosis = (extract_8_features [0, 1]).kurtosis ∧
    (extract_features [0, 1]).crest_factor =
      (extract_8_features [0, 1]).crest_factor := by
  have hvar : 0 < varQ ([0, 1] : List ℚ) := by
    norm_num [varQ, centralMoment, meanQ, List.sum_cons, List.map_cons]
  have h := extractors_agree_on_nonentropy [0, 1] (by norm_num) hvar
  exact ⟨by norm_num, hvar, h.2.2.2.2.1, h.2.2.2.2.2.2⟩

end AMDRul
